import Mathlib

/-!
Verification model of the travel-planner chatbot (src/chatbot.py).

The program keeps a conversation history `st.session_state.history` as a list
of `(role, text)` pairs and a `st.session_state.user_profile` dictionary, and
runs an orchestrator (lines 153-217) that, when the last turn is a user turn,
appends an empty assistant placeholder, attempts a streaming call to the
text-generation service, and falls back to a single blocking call when
streaming is unsupported or fails.  The external service is modelled
abstractly by a `Service` record; the orchestrator is a pure function that
also returns the ordered trace of external calls and the ordered sequence of
texts written into the last turn, so that call counts and intermediate
streaming states can be stated.
-/

set_option maxRecDepth 8192

namespace Chatbot

/-- A conversation turn, mirroring the `(role, text)` tuples stored in
`st.session_state.history` (roles are the strings used by the code). -/
structure Turn where
  role : String
  text : String
deriving DecidableEq, Repr

/-- The trip profile, mirroring the dictionary built by the profile form
handler (chatbot.py lines 92-99).  After a save every key is present. -/
structure TripProfile where
  destination : String
  start_date : String
  nights : Nat
  people : Nat
  budget : String
  travel_style : String
deriving DecidableEq, Repr

/-- The per-session state: conversation history plus profile.  The profile is
`none` for the initial empty dictionary (`ensure_session`, line 55); the only
write replaces it with a fully populated record, so `Option TripProfile`
covers all reachable profile states. -/
structure Session where
  history : List Turn
  user_profile : Option TripProfile
deriving DecidableEq, Repr

/-- Python `str.strip()` on the ASCII whitespace the inputs can contain:
drop whitespace characters from both ends. -/
def pyStrip (s : String) : String :=
  String.mk (((s.data.dropWhile Char.isWhitespace).reverse.dropWhile
    Char.isWhitespace).reverse)

/-- The fixed system instruction (chatbot.py lines 63-68), verbatim. -/
def SYSTEM_PROMPT : String :=
  "You are a friendly, precise travel-planning assistant. " ++
  "Ask any clarification questions required to produce a high-quality multi-day travel itinerary, " ++
  "then produce: 1) destination summary, 2) recommended accommodation (3 options), 3) day-by-day itinerary with timed suggestions for places to visit and meals, 4) estimated budget breakdown. " ++
  "Be concise and present the final itinerary as numbered days with bullet points."

/-- The Send button handler (lines 106-110): a blank (empty after strip)
message only shows a warning; otherwise the stripped text is appended as a
user turn. -/
def submitUserMessage (s : Session) (text : String) : Session :=
  if pyStrip text = "" then s
  else { s with history := s.history ++ [⟨"user", pyStrip text⟩] }

/-- The Clear chat handler (lines 132-134): empties the history only. -/
def clearConversation (s : Session) : Session :=
  { s with history := [] }

/-- The profile form handler (lines 91-100): builds a fresh dictionary from
the six form values and assigns it to `st.session_state.user_profile`.
`start_date` is `str(start_date) if start_date else ""`, i.e. the date string
when a date was picked and `""` when it was `None`. -/
def saveProfile (s : Session) (destination : String) (start_date : Option String)
    (nights : Nat) (people : Nat) (budget : String) (travel_style : String) :
    Session :=
  { s with user_profile := some ⟨destination, start_date.getD "", nights, people, budget, travel_style⟩ }

/-- The final instruction line of the composed plan request (line 128). -/
def missingInfoLine : String :=
  "If any information is missing, ask a short clarifying question before producing the full itinerary."

/-- The prompt composed by the Plan full itinerary handler (lines 114-129).
With the initial empty profile dictionary every `profile.get(...)` is `None`
(falsy) so only the first and last lines remain; with a saved profile the
`nights` line is always present (`is not None` on a saved int) and the other
fields are included when truthy (non-empty string, non-zero people). -/
def composePlanPrompt : Option TripProfile → String
  | none => String.intercalate "\n" ["Please create a travel plan.", missingInfoLine]
  | some p =>
    let l0 := ["Please create a travel plan."]
    let l1 := if p.destination = "" then l0 else l0 ++ ["Destination: " ++ p.destination]
    let l2 := l1 ++ ["Nights: " ++ toString p.nights]
    let l3 := if p.people = 0 then l2 else l2 ++ ["People: " ++ toString p.people]
    let l4 := if p.budget = "" then l3 else l3 ++ ["Budget: " ++ p.budget]
    let l5 := if p.travel_style = "" then l4 else l4 ++ ["Travel style: " ++ p.travel_style]
    String.intercalate "\n" (l5 ++ [missingInfoLine])

/-- The Plan full itinerary handler (lines 114-130): composes the prompt from
the saved profile and appends it directly as a user turn via `add_message`. -/
def planFullItinerary (s : Session) : Session :=
  { s with history := s.history ++ [⟨"user", composePlanPrompt s.user_profile⟩] }

/-- Assigning `st.session_state.history[-1] = t`: overwrite the final element
(no-op on an empty list, which the orchestrator never reaches because it has
just appended the placeholder). -/
def replaceLast (hist : List Turn) (t : Turn) : List Turn :=
  match hist with
  | [] => []
  | _ :: _ => hist.dropLast ++ [t]

/-- Outcome of attempting to open the incremental (streaming) channel:
`unsupported` when none of the probed method names exists (lines 174-181,
`stream` stays `None`), `openError` when the call itself raises, and
`chunks frags err` when a stream is obtained and yields the texts `frags`
in order, after which it either finishes cleanly (`err = none`) or raises
mid-iteration (`err = some e`). -/
inductive StreamOutcome where
  | unsupported
  | openError (e : String)
  | chunks (frags : List String) (err : Option String)
deriving DecidableEq, Repr

/-- A non-streaming `generate_content` response: `text?` models
`getattr(resp, "text", None)` and `toStr` models `str(resp)`. -/
structure GenResponse where
  text? : Option String
  toStr : String
deriving DecidableEq, Repr

/-- The text extracted from a response (line 208):
`getattr(resp, "text", None) or str(resp)` — Python `or` falls through on the
falsy values `None` and `""`. -/
def textOf (r : GenResponse) : String :=
  match r.text? with
  | some t => if t = "" then r.toStr else t
  | none => r.toStr

/-- The error text written on fallback failure (line 213). -/
def errMsg (e : String) : String :=
  "Error calling Gemini API: " ++ e ++ ". Check your API key and network."

/-- The external text-generation service, abstracted over the request
(`contents`, here the list of the part texts sent). -/
structure Service where
  openIncremental : List String → StreamOutcome
  generate : List String → Except String GenResponse

/-- One external call made by the orchestrator, carrying the request. -/
inductive Call where
  | openStream (req : List String)
  | generate (req : List String)
deriving DecidableEq, Repr

/-- The request carried by a call. -/
def Call.req : Call → List String
  | .openStream r => r
  | .generate r => r

/-- Whether a call is a call to the non-incremental generate endpoint. -/
def isGenCall : Call → Bool
  | .generate _ => true
  | _ => false

/-- The streaming loop body (lines 185-196): starting from accumulator `acc`,
consume the pieces in order, extending the accumulator with each piece;
returns the final accumulator and, in order, the successive accumulator
values written into the last history slot after each piece. -/
def streamLoop (acc : String) : List String → String × List String
  | [] => (acc, [])
  | piece :: rest =>
    let acc2 := acc ++ piece
    let res := streamLoop acc2 rest
    (res.1, acc2 :: res.2)

/-- Result of one orchestrator run: the final history, the ordered trace of
external calls, and the ordered sequence of texts written into the last
(assistant) turn. -/
structure OrchResult where
  history : List Turn
  calls : List Call
  writes : List String
deriving Repr

/-- The fallback branch (lines 203-214): one blocking `generate_content`
call; on success write the extracted text into the last turn, on failure
write the user-facing error text. -/
def runFallback (svc : Service) (req : List String) (hist : List Turn) :
    OrchResult :=
  match svc.generate req with
  | .ok resp => ⟨replaceLast hist ⟨"assistant", textOf resp⟩,
      [Call.generate req], [textOf resp]⟩
  | .error e => ⟨replaceLast hist ⟨"assistant", errMsg e⟩,
      [Call.generate req], [errMsg e]⟩

/-- The trigger condition (line 153): history non-empty and last role is
`"user"`. -/
def triggered (hist : List Turn) : Bool :=
  match hist.getLast? with
  | some t => t.role == "user"
  | none => false

/-- The orchestrator (lines 153-217).  When triggered it builds the request
`[SYSTEM_PROMPT, latest_user]`, appends the empty assistant placeholder,
attempts streaming (writing each accumulator value into the last turn), and
when not streamed runs the fallback.  A stream that raises mid-iteration is
modelled by `chunks frags (some e)` where `frags` are the pieces yielded
before the failure: the partial writes stay in place until the fallback
overwrites the last turn. -/
def orchestrate (svc : Service) (hist : List Turn) : OrchResult :=
  match hist.getLast? with
  | none => ⟨hist, [], []⟩
  | some last =>
    if last.role == "user" then
      let req : List String := [SYSTEM_PROMPT, last.text]
      let hist1 := hist ++ [⟨"assistant", ""⟩]
      match svc.openIncremental req with
      | .unsupported => runFallback svc req hist1
      | .openError _ =>
        let r := runFallback svc req hist1
        ⟨r.history, Call.openStream req :: r.calls, r.writes⟩
      | .chunks frags err =>
        let ws := (streamLoop "" frags).2
        let hist2 := ws.foldl (fun h w => replaceLast h ⟨"assistant", w⟩) hist1
        match err with
        | none => ⟨hist2, [Call.openStream req], ws⟩
        | some _ =>
          let r := runFallback svc req hist2
          ⟨r.history, Call.openStream req :: r.calls, ws ++ r.writes⟩
    else ⟨hist, [], []⟩

/-- The success side of the fallback: whenever the generate endpoint returns
a response for the request, the final last turn holds exactly its extracted
text. -/
def onGenerateOk (svc : Service) (req : List String) (res : OrchResult) : Prop :=
  match svc.generate req with
  | .ok resp => res.history.getLast? = some ⟨"assistant", textOf resp⟩
  | .error _ => True

/-- The streaming attempt did not finish cleanly: the channel was
unsupported, failed to open, or raised mid-iteration. -/
def streamFailed (svc : Service) (req : List String) : Prop :=
  match svc.openIncremental req with
  | .chunks _ none => False
  | _ => True

/-- The only ways the resolved assistant turn can be the empty string: the
service streamed a whole response whose fragments concatenate to `""`, or
the fallback succeeded with extracted text `""`. -/
def blankFromService (svc : Service) (req : List String) : Prop :=
  (∃ frags, svc.openIncremental req = .chunks frags none ∧ String.join frags = "") ∨
  (∃ resp, svc.generate req = .ok resp ∧ textOf resp = "")

/-- The concrete profile used by the C9 scenario. -/
def busanProfile : TripProfile :=
  ⟨"Busan", "", 3, 2, "$500", "Luxury"⟩

/-- The prompt the Plan full itinerary handler composes for `busanProfile`. -/
def busanPrompt : String :=
  "Please create a travel plan.\nDestination: Busan\nNights: 3\nPeople: 2\nBudget: $500\nTravel style: Luxury\nIf any information is missing, ask a short clarifying question before producing the full itinerary."

/-- A concrete generate response used in witness scenarios. -/
def demoResponse : GenResponse :=
  ⟨some "Day 1: Seoul. Day 2: Busan.", "resp"⟩

/-- A service whose streaming channel fails to open and whose generate call
succeeds. -/
def svcOpenFail : Service :=
  ⟨fun _ => .openError "conn reset", fun _ => .ok demoResponse⟩

/-- A service whose streaming channel opens and yields three fragments. -/
def svcStreamOk : Service :=
  ⟨fun _ => .chunks ["Day ", "1: ", "Seoul"] none, fun _ => .ok demoResponse⟩

/-- A service where streaming fails to open and the fallback also fails. -/
def svcGenFail : Service :=
  ⟨fun _ => .openError "conn reset", fun _ => .error "quota exceeded"⟩

/-- A service whose streaming channel opens successfully but yields no
fragments at all. -/
def svcStreamEmpty : Service :=
  ⟨fun _ => .chunks [] none, fun _ => .ok demoResponse⟩

/-! Helper lemmas about strings, `replaceLast`, and the streaming loop. -/

theorem sjoin_nil : String.join [] = "" := rfl

theorem sjoin_cons (s : String) (l : List String) :
    String.join (s :: l) = s ++ String.join l := by
  apply String.ext
  simp [String.join_eq]

theorem replaceLast_concat (h : List Turn) (a t : Turn) :
    replaceLast (h ++ [a]) t = h ++ [t] := by
  unfold replaceLast
  split
  · simp_all
  · rw [List.dropLast_concat]

theorem foldl_replaceLast (ws : List String) (h : List Turn) (a : Turn) :
    ws.foldl (fun hh w => replaceLast hh ⟨"assistant", w⟩) (h ++ [a]) =
      h ++ [((ws.getLast?).map (fun w => (⟨"assistant", w⟩ : Turn))).getD a] := by
  induction ws generalizing a with
  | nil => simp
  | cons w ws ih =>
    rw [List.foldl_cons, replaceLast_concat, ih]
    cases ws with
    | nil => simp
    | cons w2 ws2 =>
      cases hg : (w2 :: ws2).getLast? with
      | none => rw [List.getLast?_cons] at hg; cases ws2.getLast? <;> simp at hg
      | some x => simp [List.getLast?_cons_cons, hg]

theorem streamLoop_writes (frags : List String) (acc : String) :
    (streamLoop acc frags).2 =
      (List.range frags.length).map (fun i => acc ++ String.join (frags.take (i + 1))) := by
  induction frags generalizing acc with
  | nil => rfl
  | cons f fs ih =>
    simp only [streamLoop, ih, List.length_cons, List.range_succ_eq_map,
      List.map_cons, List.map_map]
    congr 1
    apply List.map_congr_left
    intro i _
    simp only [Function.comp_apply, List.take_succ_cons, sjoin_cons]
    rw [String.append_assoc]

theorem streamLoop_fst (frags : List String) (acc : String) :
    (streamLoop acc frags).1 = acc ++ String.join frags := by
  induction frags generalizing acc with
  | nil => simp [streamLoop, String.join]
  | cons f fs ih =>
    simp only [streamLoop, ih, sjoin_cons, String.append_assoc]

theorem streamLoop_len (frags : List String) (acc : String) :
    (streamLoop acc frags).2.length = frags.length := by
  induction frags generalizing acc with
  | nil => rfl
  | cons f fs ih => simp [streamLoop, ih]

theorem streamLoop_writes_getLast? (frags : List String) (acc : String)
    (hne : frags ≠ []) :
    (streamLoop acc frags).2.getLast? = some (streamLoop acc frags).1 := by
  induction frags generalizing acc with
  | nil => exact absurd rfl hne
  | cons f fs ih =>
    cases fs with
    | nil => rfl
    | cons f2 fs2 =>
      have h2 := ih (acc ++ f) (by simp)
      simp only [streamLoop] at h2 ⊢
      rw [List.getLast?_cons, h2]
      rfl

theorem errMsg_ne_empty (e : String) : errMsg e ≠ "" := by
  intro h
  have h2 := congrArg String.length h
  unfold errMsg at h2
  simp only [String.length_append] at h2
  have h3 : "Error calling Gemini API: ".length = 26 := rfl
  have h4 : ". Check your API key and network.".length = 33 := rfl
  have h5 : "".length = 0 := rfl
  omega

theorem head?_dropWhile_all {α : Type} (p : α → Bool) (l : List α) :
    ((l.dropWhile p).head?).all (fun c => !p c) = true := by
  have h := List.head?_dropWhile_not p l
  cases hh : (l.dropWhile p).head? with
  | none => rfl
  | some x =>
    rw [hh] at h
    have h2 : p x = false := h
    simp [h2]

theorem getLast?_dropWhile {α : Type} (p : α → Bool) (l : List α)
    (h : l.dropWhile p ≠ []) : (l.dropWhile p).getLast? = l.getLast? := by
  induction l with
  | nil => simp at h
  | cons a l ih =>
    by_cases hp : p a
    · rw [List.dropWhile_cons_of_pos hp] at h ⊢
      rw [ih h]
      have hl : l ≠ [] := by
        intro hh
        subst hh
        simp at h
      cases l with
      | nil => exact absurd rfl hl
      | cons b m => rw [List.getLast?_cons_cons]
    · rw [List.dropWhile_cons_of_neg hp]

theorem pyStrip_data (s : String) :
    (pyStrip s).data =
      ((s.data.dropWhile Char.isWhitespace).reverse.dropWhile Char.isWhitespace).reverse :=
  rfl

theorem pyStrip_last_not_ws (s : String) :
    ((pyStrip s).data.getLast?).all (fun c => !c.isWhitespace) = true := by
  rw [pyStrip_data, List.getLast?_reverse]
  exact head?_dropWhile_all _ _

theorem pyStrip_head_not_ws (s : String) :
    ((pyStrip s).data.head?).all (fun c => !c.isWhitespace) = true := by
  rw [pyStrip_data, List.head?_reverse]
  by_cases hX : ((s.data.dropWhile Char.isWhitespace).reverse.dropWhile Char.isWhitespace) = []
  · rw [hX]; rfl
  · rw [getLast?_dropWhile _ _ hX, List.getLast?_reverse]
    exact head?_dropWhile_all _ _

/-! Unfolding lemmas for the orchestrator, one per service outcome. -/

theorem runFallback_ok (svc : Service) (req : List String) (h : List Turn) (a : Turn)
    (resp : GenResponse) (hg : svc.generate req = .ok resp) :
    runFallback svc req (h ++ [a]) =
      ⟨h ++ [⟨"assistant", textOf resp⟩], [Call.generate req], [textOf resp]⟩ := by
  simp [runFallback, hg, replaceLast_concat]

theorem runFallback_error (svc : Service) (req : List String) (h : List Turn) (a : Turn)
    (e : String) (hg : svc.generate req = .error e) :
    runFallback svc req (h ++ [a]) =
      ⟨h ++ [⟨"assistant", errMsg e⟩], [Call.generate req], [errMsg e]⟩ := by
  simp [runFallback, hg, replaceLast_concat]

theorem foldl_stream_writes (hist : List Turn) (frags : List String) :
    ((streamLoop "" frags).2).foldl (fun h w => replaceLast h ⟨"assistant", w⟩)
        (hist ++ [(⟨"assistant", ""⟩ : Turn)]) =
      hist ++ [⟨"assistant", String.join frags⟩] := by
  rw [foldl_replaceLast]
  by_cases hf : frags = []
  · subst hf; rfl
  · rw [streamLoop_writes_getLast? _ _ hf, streamLoop_fst]
    simp [String.empty_append]

theorem orchestrate_of_unsupported (svc : Service) (hist : List Turn) (last : Turn)
    (hlast : hist.getLast? = some last) (hrole : last.role = "user")
    (ho : svc.openIncremental [SYSTEM_PROMPT, last.text] = .unsupported) :
    orchestrate svc hist =
      runFallback svc [SYSTEM_PROMPT, last.text] (hist ++ [⟨"assistant", ""⟩]) := by
  unfold orchestrate
  rw [hlast]
  simp [hrole, ho]

theorem orchestrate_of_openError (svc : Service) (hist : List Turn) (last : Turn)
    (e : String) (hlast : hist.getLast? = some last) (hrole : last.role = "user")
    (ho : svc.openIncremental [SYSTEM_PROMPT, last.text] = .openError e) :
    orchestrate svc hist =
      ⟨(runFallback svc [SYSTEM_PROMPT, last.text] (hist ++ [⟨"assistant", ""⟩])).history,
        Call.openStream [SYSTEM_PROMPT, last.text] ::
          (runFallback svc [SYSTEM_PROMPT, last.text] (hist ++ [⟨"assistant", ""⟩])).calls,
        (runFallback svc [SYSTEM_PROMPT, last.text] (hist ++ [⟨"assistant", ""⟩])).writes⟩ := by
  unfold orchestrate
  rw [hlast]
  simp [hrole, ho]

theorem orchestrate_of_chunks_none (svc : Service) (hist : List Turn) (last : Turn)
    (frags : List String) (hlast : hist.getLast? = some last) (hrole : last.role = "user")
    (ho : svc.openIncremental [SYSTEM_PROMPT, last.text] = .chunks frags none) :
    orchestrate svc hist =
      ⟨hist ++ [⟨"assistant", String.join frags⟩],
        [Call.openStream [SYSTEM_PROMPT, last.text]], (streamLoop "" frags).2⟩ := by
  unfold orchestrate
  rw [hlast]
  simp only [hrole, beq_self_eq_true, if_pos, ho]
  rw [foldl_stream_writes]

theorem orchestrate_of_chunks_err (svc : Service) (hist : List Turn) (last : Turn)
    (frags : List String) (e : String)
    (hlast : hist.getLast? = some last) (hrole : last.role = "user")
    (ho : svc.openIncremental [SYSTEM_PROMPT, last.text] = .chunks frags (some e)) :
    orchestrate svc hist =
      ⟨(runFallback svc [SYSTEM_PROMPT, last.text]
          (hist ++ [⟨"assistant", String.join frags⟩])).history,
        Call.openStream [SYSTEM_PROMPT, last.text] ::
          (runFallback svc [SYSTEM_PROMPT, last.text]
            (hist ++ [⟨"assistant", String.join frags⟩])).calls,
        (streamLoop "" frags).2 ++
          (runFallback svc [SYSTEM_PROMPT, last.text]
            (hist ++ [⟨"assistant", String.join frags⟩])).writes⟩ := by
  unfold orchestrate
  rw [hlast]
  simp only [hrole, beq_self_eq_true, if_pos, ho]
  rw [foldl_stream_writes]

theorem orchestrate_not_triggered (svc : Service) (hist : List Turn)
    (h : triggered hist = false) : orchestrate svc hist = ⟨hist, [], []⟩ := by
  unfold orchestrate
  unfold triggered at h
  cases hlast : hist.getLast? with
  | none => simp
  | some last =>
    rw [hlast] at h
    simp only [hlast]
    have h2 : (last.role == "user") = false := h
    simp [h2]

theorem triggered_concat_assistant (hist : List Turn) (t : String) :
    triggered (hist ++ [(⟨"assistant", t⟩ : Turn)]) = false := by
  unfold triggered
  rw [List.getLast?_concat]
  rfl

theorem triggered_iff (hist : List Turn) :
    triggered hist = true ↔ ∃ last, hist.getLast? = some last ∧ last.role = "user" := by
  unfold triggered
  cases hl : hist.getLast? with
  | none => simp
  | some t => simp

theorem runFallback_calls (svc : Service) (req : List String) (h : List Turn) :
    (runFallback svc req h).calls = [Call.generate req] := by
  unfold runFallback
  cases svc.generate req <;> rfl

theorem orchestrate_calls_req (svc : Service) (hist : List Turn) (last : Turn)
    (hlast : hist.getLast? = some last) (hrole : last.role = "user") :
    (orchestrate svc hist).calls.map Call.req =
      List.replicate (orchestrate svc hist).calls.length [SYSTEM_PROMPT, last.text] := by
  cases ho : svc.openIncremental [SYSTEM_PROMPT, last.text] with
  | unsupported =>
    rw [orchestrate_of_unsupported svc hist last hlast hrole ho]
    cases hg : svc.generate [SYSTEM_PROMPT, last.text] with
    | ok resp => rw [runFallback_ok _ _ _ _ _ hg]; rfl
    | error e => rw [runFallback_error _ _ _ _ _ hg]; rfl
  | openError e =>
    rw [orchestrate_of_openError svc hist last e hlast hrole ho]
    cases hg : svc.generate [SYSTEM_PROMPT, last.text] with
    | ok resp => rw [runFallback_ok _ _ _ _ _ hg]; rfl
    | error e2 => rw [runFallback_error _ _ _ _ _ hg]; rfl
  | chunks frags err =>
    cases err with
    | none => rw [orchestrate_of_chunks_none svc hist last frags hlast hrole ho]; rfl
    | some e =>
      rw [orchestrate_of_chunks_err svc hist last frags e hlast hrole ho]
      cases hg : svc.generate [SYSTEM_PROMPT, last.text] with
      | ok resp => rw [runFallback_ok _ _ _ _ _ hg]; rfl
      | error e2 => rw [runFallback_error _ _ _ _ _ hg]; rfl

theorem orchestrate_history_assistant (svc : Service) (hist : List Turn) (last : Turn)
    (hlast : hist.getLast? = some last) (hrole : last.role = "user") :
    ∃ t, (orchestrate svc hist).history = hist ++ [(⟨"assistant", t⟩ : Turn)] := by
  cases ho : svc.openIncremental [SYSTEM_PROMPT, last.text] with
  | unsupported =>
    rw [orchestrate_of_unsupported svc hist last hlast hrole ho]
    cases hg : svc.generate [SYSTEM_PROMPT, last.text] with
    | ok resp => rw [runFallback_ok _ _ _ _ _ hg]; exact ⟨textOf resp, rfl⟩
    | error e => rw [runFallback_error _ _ _ _ _ hg]; exact ⟨errMsg e, rfl⟩
  | openError e =>
    rw [orchestrate_of_openError svc hist last e hlast hrole ho]
    cases hg : svc.generate [SYSTEM_PROMPT, last.text] with
    | ok resp => rw [runFallback_ok _ _ _ _ _ hg]; exact ⟨textOf resp, rfl⟩
    | error e2 => rw [runFallback_error _ _ _ _ _ hg]; exact ⟨errMsg e2, rfl⟩
  | chunks frags err =>
    cases err with
    | none =>
      rw [orchestrate_of_chunks_none svc hist last frags hlast hrole ho]
      exact ⟨String.join frags, rfl⟩
    | some e =>
      rw [orchestrate_of_chunks_err svc hist last frags e hlast hrole ho]
      cases hg : svc.generate [SYSTEM_PROMPT, last.text] with
      | ok resp => rw [runFallback_ok _ _ _ _ _ hg]; exact ⟨textOf resp, rfl⟩
      | error e2 => rw [runFallback_error _ _ _ _ _ hg]; exact ⟨errMsg e2, rfl⟩

/-! The claim theorems. -/

/-- C1: when the incremental (streaming) channel fails to open or fails
during iteration, the orchestrator makes exactly one call to the
non-incremental generate endpoint, and when that call succeeds the final
text of the last (assistant) turn equals the text extracted from the
fallback response verbatim, with no partial streamed fragments retained. -/
theorem fallback_single_call_exact_text (svc : Service) (hist : List Turn) (last : Turn)
    (hlast : hist.getLast? = some last) (hrole : last.role = "user")
    (hfail : (∃ e, svc.openIncremental [SYSTEM_PROMPT, last.text] = .openError e) ∨
      (∃ frags e, svc.openIncremental [SYSTEM_PROMPT, last.text] = .chunks frags (some e))) :
    ((orchestrate svc hist).calls.filter isGenCall).length = 1 ∧
      onGenerateOk svc [SYSTEM_PROMPT, last.text] (orchestrate svc hist) := by
  rcases hfail with ⟨e, ho⟩ | ⟨frags, e, ho⟩
  · rw [orchestrate_of_openError svc hist last e hlast hrole ho]
    cases hg : svc.generate [SYSTEM_PROMPT, last.text] with
    | ok resp =>
      rw [runFallback_ok _ _ _ _ _ hg]
      refine ⟨rfl, ?_⟩
      unfold onGenerateOk
      rw [hg]
      simp [List.getLast?_concat]
    | error e2 =>
      rw [runFallback_error _ _ _ _ _ hg]
      refine ⟨rfl, ?_⟩
      unfold onGenerateOk
      rw [hg]
      trivial
  · rw [orchestrate_of_chunks_err svc hist last frags e hlast hrole ho]
    cases hg : svc.generate [SYSTEM_PROMPT, last.text] with
    | ok resp =>
      rw [runFallback_ok _ _ _ _ _ hg]
      refine ⟨rfl, ?_⟩
      unfold onGenerateOk
      rw [hg]
      simp [List.getLast?_concat]
    | error e2 =>
      rw [runFallback_error _ _ _ _ _ hg]
      refine ⟨rfl, ?_⟩
      unfold onGenerateOk
      rw [hg]
      trivial

/-- C1 witness: a concrete service whose channel fails to open. -/
theorem fallback_single_call_exact_text_witness :
    ((orchestrate svcOpenFail [⟨"user", "hi"⟩]).calls.filter isGenCall).length = 1 ∧
      onGenerateOk svcOpenFail [SYSTEM_PROMPT, "hi"]
        (orchestrate svcOpenFail [⟨"user", "hi"⟩]) :=
  fallback_single_call_exact_text svcOpenFail [⟨"user", "hi"⟩] ⟨"user", "hi"⟩
    (by rfl) (by rfl) (Or.inl ⟨"conn reset", rfl⟩)

/-- C2: on a successfully opened streaming channel yielding `frags` in
order, the texts written into the in-flight assistant turn are exactly the
left-to-right cumulative concatenations of the fragments, in order; when the
stream finishes cleanly these are all the writes of the run. -/
theorem streaming_writes_cumulative (svc : Service) (hist : List Turn) (last : Turn)
    (frags : List String) (err : Option String)
    (hlast : hist.getLast? = some last) (hrole : last.role = "user")
    (ho : svc.openIncremental [SYSTEM_PROMPT, last.text] = .chunks frags err) :
    (orchestrate svc hist).writes.take frags.length =
        (List.range frags.length).map (fun i => String.join (frags.take (i + 1))) ∧
      (err = none → (orchestrate svc hist).writes =
        (List.range frags.length).map (fun i => String.join (frags.take (i + 1)))) := by
  have hw : (streamLoop "" frags).2 =
      (List.range frags.length).map (fun i => String.join (frags.take (i + 1))) := by
    rw [streamLoop_writes]
    apply List.map_congr_left
    intro i _
    rw [String.empty_append]
  cases err with
  | none =>
    rw [orchestrate_of_chunks_none svc hist last frags hlast hrole ho]
    refine ⟨?_, fun _ => hw⟩
    show ((streamLoop "" frags).2).take frags.length = _
    conv_lhs => rw [← streamLoop_len frags "", List.take_length]
    exact hw
  | some e =>
    rw [orchestrate_of_chunks_err svc hist last frags e hlast hrole ho]
    constructor
    · show (((streamLoop "" frags).2) ++
          (runFallback svc [SYSTEM_PROMPT, last.text]
            (hist ++ [⟨"assistant", String.join frags⟩])).writes).take frags.length = _
      rw [List.take_left' (streamLoop_len frags "")]
      exact hw
    · intro hcontra
      simp at hcontra

/-- C2 witness: the three-fragment stream from the spec example. -/
theorem streaming_writes_cumulative_witness :
    (orchestrate svcStreamOk [⟨"user", "hi"⟩]).writes.take
        (["Day ", "1: ", "Seoul"] : List String).length =
        (List.range (["Day ", "1: ", "Seoul"] : List String).length).map
          (fun i => String.join ((["Day ", "1: ", "Seoul"] : List String).take (i + 1))) ∧
      ((none : Option String) = none →
        (orchestrate svcStreamOk [⟨"user", "hi"⟩]).writes =
          (List.range (["Day ", "1: ", "Seoul"] : List String).length).map
            (fun i => String.join ((["Day ", "1: ", "Seoul"] : List String).take (i + 1)))) :=
  streaming_writes_cumulative svcStreamOk [⟨"user", "hi"⟩] ⟨"user", "hi"⟩
    ["Day ", "1: ", "Seoul"] none (by rfl) (by rfl) rfl

theorem fallback_components (svc : Service) (req : List String) (hist : List Turn)
    (mid : Turn) (e : String) :
    (runFallback svc req (hist ++ [mid])).history.dropLast = hist ∧
    ((runFallback svc req (hist ++ [mid])).history.getLast?).all
      (fun t => t.role == "assistant") = true ∧
    triggered (runFallback svc req (hist ++ [mid])).history = false ∧
    (svc.generate req = .error e →
      (runFallback svc req (hist ++ [mid])).history.getLast? =
        some ⟨"assistant", errMsg e⟩) ∧
    ((runFallback svc req (hist ++ [mid])).history.getLast? =
        some ⟨"assistant", ""⟩ →
      ∃ resp, svc.generate req = .ok resp ∧ textOf resp = "") := by
  cases hg : svc.generate req with
  | ok resp =>
    rw [runFallback_ok _ _ _ _ _ hg]
    refine ⟨List.dropLast_concat, ?_, triggered_concat_assistant hist _, ?_, ?_⟩
    · rw [List.getLast?_concat]; rfl
    · intro hge
      simp at hge
    · intro heq
      rw [List.getLast?_concat] at heq
      have ht : textOf resp = "" := by
        have h2 := Option.some.inj heq
        exact congrArg Turn.text h2
      exact ⟨resp, rfl, ht⟩
  | error e2 =>
    rw [runFallback_error _ _ _ _ _ hg]
    refine ⟨List.dropLast_concat, ?_, triggered_concat_assistant hist _, ?_, ?_⟩
    · rw [List.getLast?_concat]; rfl
    · intro hge
      have he : e2 = e := by
        injection hge
      subst he
      exact List.getLast?_concat hist
    · intro heq
      rw [List.getLast?_concat] at heq
      have ht : errMsg e2 = "" := by
        have h2 := Option.some.inj heq
        exact congrArg Turn.text h2
      exact absurd ht (errMsg_ne_empty e2)

/-- C3 counterexample: the claim as stated is false — with a service whose
incremental channel opens successfully but yields no fragments, the
orchestrator resolves as a streamed success yet the assistant turn keeps the
blank placeholder text. -/
theorem resolution_blank_counterexample :
    triggered [(⟨"user", "hi"⟩ : Turn)] = true ∧
      (orchestrate svcStreamEmpty [⟨"user", "hi"⟩]).history =
        [⟨"user", "hi"⟩, ⟨"assistant", ""⟩] ∧
      (orchestrate svcStreamEmpty [⟨"user", "hi"⟩]).history.getLast? =
        some ⟨"assistant", ""⟩ := by
  refine ⟨rfl, rfl, rfl⟩

/-- C3 (amended): after the orchestrator resolves, the prior turns are
unchanged, the sequence ends in an assistant turn and the trigger condition
is false; on fallback failure the error string (which embeds the underlying
reason and is never empty) is written via replace-last; and the resolved
assistant text can be blank only when the service itself returned blank text
(an all-empty streamed response, or a successful fallback whose extracted
text is empty). -/
theorem resolution_final_turn (svc : Service) (hist : List Turn) (last : Turn)
    (e : String) (hlast : hist.getLast? = some last) (hrole : last.role = "user") :
    (orchestrate svc hist).history.dropLast = hist ∧
    ((orchestrate svc hist).history.getLast?).all
      (fun t => t.role == "assistant") = true ∧
    triggered (orchestrate svc hist).history = false ∧
    (streamFailed svc [SYSTEM_PROMPT, last.text] →
      svc.generate [SYSTEM_PROMPT, last.text] = .error e →
      (orchestrate svc hist).history.getLast? = some ⟨"assistant", errMsg e⟩ ∧
        (∃ a b, errMsg e = a ++ e ++ b) ∧ errMsg e ≠ "") ∧
    ((orchestrate svc hist).history.getLast? = some ⟨"assistant", ""⟩ →
      blankFromService svc [SYSTEM_PROMPT, last.text]) := by
  cases ho : svc.openIncremental [SYSTEM_PROMPT, last.text] with
  | unsupported =>
    rw [orchestrate_of_unsupported svc hist last hlast hrole ho]
    obtain ⟨h1, h2, h3, h4, h5⟩ :=
      fallback_components svc [SYSTEM_PROMPT, last.text] hist ⟨"assistant", ""⟩ e
    exact ⟨h1, h2, h3,
      fun _ hge => ⟨h4 hge,
        ⟨"Error calling Gemini API: ", ". Check your API key and network.", rfl⟩,
        errMsg_ne_empty e⟩,
      fun heq => Or.inr (h5 heq)⟩
  | openError e2 =>
    rw [orchestrate_of_openError svc hist last e2 hlast hrole ho]
    obtain ⟨h1, h2, h3, h4, h5⟩ :=
      fallback_components svc [SYSTEM_PROMPT, last.text] hist ⟨"assistant", ""⟩ e
    exact ⟨h1, h2, h3,
      fun _ hge => ⟨h4 hge,
        ⟨"Error calling Gemini API: ", ". Check your API key and network.", rfl⟩,
        errMsg_ne_empty e⟩,
      fun heq => Or.inr (h5 heq)⟩
  | chunks frags err =>
    cases err with
    | none =>
      rw [orchestrate_of_chunks_none svc hist last frags hlast hrole ho]
      refine ⟨List.dropLast_concat, ?_, triggered_concat_assistant hist _, ?_, ?_⟩
      · rw [List.getLast?_concat]; rfl
      · intro hsf _
        exfalso
        unfold streamFailed at hsf
        rw [ho] at hsf
        exact hsf
      · intro heq
        rw [List.getLast?_concat] at heq
        have ht : String.join frags = "" := by
          have h2 := Option.some.inj heq
          exact congrArg Turn.text h2
        exact Or.inl ⟨frags, ho, ht⟩
    | some e2 =>
      rw [orchestrate_of_chunks_err svc hist last frags e2 hlast hrole ho]
      obtain ⟨h1, h2, h3, h4, h5⟩ :=
        fallback_components svc [SYSTEM_PROMPT, last.text] hist
          ⟨"assistant", String.join frags⟩ e
      exact ⟨h1, h2, h3,
        fun _ hge => ⟨h4 hge,
          ⟨"Error calling Gemini API: ", ". Check your API key and network.", rfl⟩,
          errMsg_ne_empty e⟩,
        fun heq => Or.inr (h5 heq)⟩

/-- C3 witness: a concrete run where streaming fails to open and the
fallback also fails. -/
theorem resolution_final_turn_witness :
    (orchestrate svcGenFail [⟨"user", "hi"⟩]).history.dropLast = [⟨"user", "hi"⟩] ∧
    ((orchestrate svcGenFail [⟨"user", "hi"⟩]).history.getLast?).all
      (fun t => t.role == "assistant") = true ∧
    triggered (orchestrate svcGenFail [⟨"user", "hi"⟩]).history = false ∧
    (streamFailed svcGenFail [SYSTEM_PROMPT, "hi"] →
      svcGenFail.generate [SYSTEM_PROMPT, "hi"] = .error "quota exceeded" →
      (orchestrate svcGenFail [⟨"user", "hi"⟩]).history.getLast? =
          some ⟨"assistant", errMsg "quota exceeded"⟩ ∧
        (∃ a b, errMsg "quota exceeded" = a ++ "quota exceeded" ++ b) ∧
        errMsg "quota exceeded" ≠ "") ∧
    ((orchestrate svcGenFail [⟨"user", "hi"⟩]).history.getLast? =
        some ⟨"assistant", ""⟩ →
      blankFromService svcGenFail [SYSTEM_PROMPT, "hi"]) :=
  resolution_final_turn svcGenFail [⟨"user", "hi"⟩] ⟨"user", "hi"⟩
    "quota exceeded" (by rfl) (by rfl)

/-- C4: the orchestrator issues an external model call exactly when the turn
sequence is non-empty with a last user turn; appending the placeholder
assistant turn falsifies the trigger, and after the run the trigger is false,
so no duplicate call is made for the same user turn. -/
theorem trigger_iff_dispatch (svc : Service) (hist : List Turn) :
    (triggered hist = true ↔
      hist ≠ [] ∧ ((hist.getLast?).all (fun t => t.role == "user")) = true) ∧
    ((orchestrate svc hist).calls ≠ [] ↔ triggered hist = true) ∧
    (triggered hist = true →
      triggered (hist ++ [(⟨"assistant", ""⟩ : Turn)]) = false ∧
      triggered (orchestrate svc hist).history = false) := by
  refine ⟨?_, ⟨?_, ?_⟩, ?_⟩
  · unfold triggered
    cases hl : hist.getLast? with
    | none =>
      have : hist = [] := by
        cases hist with
        | nil => rfl
        | cons a l => simp [List.getLast?_cons] at hl
      simp [this]
    | some t =>
      have hne : hist ≠ [] := by
        intro hh
        subst hh
        simp at hl
      simp [hne]
  · intro hc
    by_contra htr
    rw [Bool.not_eq_true] at htr
    rw [orchestrate_not_triggered svc hist htr] at hc
    exact hc rfl
  · intro htr
    obtain ⟨last, hlast, hrole⟩ := (triggered_iff hist).mp htr
    cases ho : svc.openIncremental [SYSTEM_PROMPT, last.text] with
    | unsupported =>
      rw [orchestrate_of_unsupported svc hist last hlast hrole ho, runFallback_calls]
      simp
    | openError e =>
      rw [orchestrate_of_openError svc hist last e hlast hrole ho]
      simp
    | chunks frags err =>
      cases err with
      | none =>
        rw [orchestrate_of_chunks_none svc hist last frags hlast hrole ho]
        simp
      | some e =>
        rw [orchestrate_of_chunks_err svc hist last frags e hlast hrole ho]
        simp
  · intro htr
    obtain ⟨last, hlast, hrole⟩ := (triggered_iff hist).mp htr
    refine ⟨triggered_concat_assistant hist "", ?_⟩
    obtain ⟨t, ht⟩ := orchestrate_history_assistant svc hist last hlast hrole
    rw [ht]
    exact triggered_concat_assistant hist t

/-- C5: every external call of a triggered run (streaming open and fallback
alike) carries the same two-element request: the fixed system instruction
followed by the literal text of the latest user turn, with no prior
history. -/
theorem request_is_system_plus_latest_user (svc : Service) (hist : List Turn)
    (last : Turn) (hlast : hist.getLast? = some last) (hrole : last.role = "user") :
    (orchestrate svc hist).calls.map Call.req =
      List.replicate (orchestrate svc hist).calls.length [SYSTEM_PROMPT, last.text] :=
  orchestrate_calls_req svc hist last hlast hrole

/-- C5 witness: a concrete streamed run. -/
theorem request_is_system_plus_latest_user_witness :
    (orchestrate svcStreamOk [⟨"user", "hi"⟩]).calls.map Call.req =
      List.replicate (orchestrate svcStreamOk [⟨"user", "hi"⟩]).calls.length
        [SYSTEM_PROMPT, "hi"] :=
  request_is_system_plus_latest_user svcStreamOk [⟨"user", "hi"⟩] ⟨"user", "hi"⟩
    (by rfl) (by rfl)

/-- C6: submitting an empty or whitespace-only message is a no-op: the
session (and in particular the turn sequence and its length) is unchanged,
so no model call is triggered. -/
theorem blank_submit_noop (s : Session) (text : String) (h : pyStrip text = "") :
    submitUserMessage s text = s ∧
      (submitUserMessage s text).history.length = s.history.length := by
  unfold submitUserMessage
  rw [if_pos h]
  exact ⟨rfl, rfl⟩

/-- C6 witness: a whitespace-only message on the empty session. -/
theorem blank_submit_noop_witness :
    submitUserMessage ⟨[], none⟩ "   " = (⟨[], none⟩ : Session) ∧
      (submitUserMessage ⟨[], none⟩ "   ").history.length =
        (Session.mk [] none).history.length :=
  blank_submit_noop ⟨[], none⟩ "   " (by decide)

/-- C7: clearing the conversation empties the turn sequence and leaves the
profile untouched; values saved before the clear are still observable. -/
theorem clear_chat_frame (s : Session) (d : String) (sd : Option String)
    (n p : Nat) (b ts : String) :
    (clearConversation s).history = [] ∧
    (clearConversation s).user_profile = s.user_profile ∧
    (clearConversation (saveProfile s d sd n p b ts)).user_profile =
      (saveProfile s d sd n p b ts).user_profile :=
  ⟨rfl, rfl, rfl⟩

/-- C8: saving the profile replaces the record wholesale with the submitted
values, and a later save erases every field of an earlier one (no
field-by-field merge). -/
theorem save_profile_wholesale (s : Session) (d : String) (sd : Option String)
    (n p : Nat) (b ts : String) (d0 : String) (sd0 : Option String)
    (n0 p0 : Nat) (b0 ts0 : String) :
    (saveProfile s d sd n p b ts).user_profile =
        some ⟨d, sd.getD "", n, p, b, ts⟩ ∧
      saveProfile (saveProfile s d0 sd0 n0 p0 b0 ts0) d sd n p b ts =
        saveProfile s d sd n p b ts :=
  ⟨rfl, rfl⟩

/-- C9: the Plan full itinerary action appends, as a user turn, the prompt
composed from the saved profile; for the Busan profile that prompt contains
all five saved values and ends with the clarifying-question instruction, and
the appended user turn re-triggers the same assistant-turn lifecycle. -/
theorem plan_full_itinerary_busan (hist : List Turn) :
    (planFullItinerary ⟨hist, some busanProfile⟩).history =
        hist ++ [⟨"user", composePlanPrompt (some busanProfile)⟩] ∧
      composePlanPrompt (some busanProfile) = busanPrompt ∧
      (∃ a b, composePlanPrompt (some busanProfile) = a ++ "Busan" ++ b) ∧
      (∃ a b, composePlanPrompt (some busanProfile) = a ++ "3" ++ b) ∧
      (∃ a b, composePlanPrompt (some busanProfile) = a ++ "2" ++ b) ∧
      (∃ a b, composePlanPrompt (some busanProfile) = a ++ "$500" ++ b) ∧
      (∃ a b, composePlanPrompt (some busanProfile) = a ++ "Luxury" ++ b) ∧
      (∃ a, composePlanPrompt (some busanProfile) = a ++ missingInfoLine) ∧
      triggered (planFullItinerary ⟨hist, some busanProfile⟩).history = true := by
  refine ⟨rfl, by decide,
    ⟨"Please create a travel plan.\nDestination: ",
      "\nNights: 3\nPeople: 2\nBudget: $500\nTravel style: Luxury\nIf any information is missing, ask a short clarifying question before producing the full itinerary.",
      by decide⟩,
    ⟨"Please create a travel plan.\nDestination: Busan\nNights: ",
      "\nPeople: 2\nBudget: $500\nTravel style: Luxury\nIf any information is missing, ask a short clarifying question before producing the full itinerary.",
      by decide⟩,
    ⟨"Please create a travel plan.\nDestination: Busan\nNights: 3\nPeople: ",
      "\nBudget: $500\nTravel style: Luxury\nIf any information is missing, ask a short clarifying question before producing the full itinerary.",
      by decide⟩,
    ⟨"Please create a travel plan.\nDestination: Busan\nNights: 3\nPeople: 2\nBudget: ",
      "\nTravel style: Luxury\nIf any information is missing, ask a short clarifying question before producing the full itinerary.",
      by decide⟩,
    ⟨"Please create a travel plan.\nDestination: Busan\nNights: 3\nPeople: 2\nBudget: $500\nTravel style: ",
      "\nIf any information is missing, ask a short clarifying question before producing the full itinerary.",
      by decide⟩,
    ⟨"Please create a travel plan.\nDestination: Busan\nNights: 3\nPeople: 2\nBudget: $500\nTravel style: Luxury\n",
      by decide⟩, ?_⟩
  unfold planFullItinerary triggered
  rw [List.getLast?_concat]
  rfl

/-- C10: a non-blank submitted message is stored with leading and trailing
whitespace removed; the stored text neither begins nor ends with whitespace,
and it is exactly the user text sent to the model in every external call of
the triggered run. -/
theorem submit_stores_stripped (svc : Service) (s : Session) (text : String)
    (h : pyStrip text ≠ "") :
    (submitUserMessage s text).history =
        s.history ++ [⟨"user", pyStrip text⟩] ∧
      ((pyStrip text).data.head?).all (fun c => !c.isWhitespace) = true ∧
      ((pyStrip text).data.getLast?).all (fun c => !c.isWhitespace) = true ∧
      (orchestrate svc (submitUserMessage s text).history).calls.map Call.req =
        List.replicate
          (orchestrate svc (submitUserMessage s text).history).calls.length
          [SYSTEM_PROMPT, pyStrip text] := by
  have hh : (submitUserMessage s text).history =
      s.history ++ [⟨"user", pyStrip text⟩] := by
    unfold submitUserMessage
    rw [if_neg h]
  refine ⟨hh, pyStrip_head_not_ws text, pyStrip_last_not_ws text, ?_⟩
  have hlast : (submitUserMessage s text).history.getLast? =
      some ⟨"user", pyStrip text⟩ := by
    rw [hh]
    exact List.getLast?_concat _
  exact orchestrate_calls_req svc _ ⟨"user", pyStrip text⟩ hlast rfl

/-- C10 witness: a concrete padded message. -/
theorem submit_stores_stripped_witness :
    (submitUserMessage ⟨[], none⟩ "  plan a trip  ").history =
        (Session.mk [] none).history ++ [⟨"user", pyStrip "  plan a trip  "⟩] ∧
      ((pyStrip "  plan a trip  ").data.head?).all (fun c => !c.isWhitespace) = true ∧
      ((pyStrip "  plan a trip  ").data.getLast?).all (fun c => !c.isWhitespace) = true ∧
      (orchestrate svcStreamOk
            (submitUserMessage ⟨[], none⟩ "  plan a trip  ").history).calls.map Call.req =
        List.replicate
          (orchestrate svcStreamOk
            (submitUserMessage ⟨[], none⟩ "  plan a trip  ").history).calls.length
          [SYSTEM_PROMPT, pyStrip "  plan a trip  "] :=
  submit_stores_stripped svcStreamOk ⟨[], none⟩ "  plan a trip  " (by decide)

end Chatbot
